import Mathlib

/-!
Shallow embedding of the `wos-client-onboarding` scripts:
`generate_client_config.py`, `setup_n8n_tables.py`,
`verify_hubspot_properties.py`.

Python dict-backed records are modelled as structures whose optional keys
are `Option String` (key absent = `none`); Python truthiness of a string
value is `truthy`; Python `str.isdigit` and `str.upper` are modelled on
the ASCII range, which is the range the scripts use them on.
-/

namespace WOS

/-- Python truthiness of `d.get(key)` for a string-valued key:
`None` and `""` are falsy, every other string is truthy. -/
def truthy : Option String → Bool
  | none => false
  | some s => !s.isEmpty

/-- The test `'A' ≤ c ≤ 'Z'`: the character class `[A-Z]` of the prefix regex. -/
def isUpperAZ (c : Char) : Bool := 'A' ≤ c && c ≤ 'Z'

/-- Model of `re.fullmatch(r"[A-Z]{2,4}", s)` as a Boolean: the whole string is
2 to 4 uppercase ASCII letters. -/
def fullmatchUpper24 (s : String) : Bool :=
  2 ≤ s.length && s.length ≤ 4 && s.data.all isUpperAZ

/-- Model of `generate_client_config.validate_prefix`. -/
def validate_prefix (p : String) : List String :=
  if fullmatchUpper24 p then []
  else ["Prefix must be 2-4 uppercase letters, got: \x27" ++ p ++ "\x27"]

/-- An operator record from the config JSON; each key may be absent. -/
structure Operator where
  name : Option String
  hubspot_owner_id : Option String
deriving Repr, DecidableEq

/-- A persona record from the config JSON; each key may be absent. -/
structure Persona where
  title_keywords : Option String
  language : Option String
  network_distance : Option String
  location : Option String
deriving Repr, DecidableEq

/-- The client config record; `pfx` models the `"prefix"` key. -/
structure ClientConfig where
  company_name : Option String
  pfx : Option String
  operators : List Operator
  personas : List Persona
deriving Repr, DecidableEq

/-- Python `str.isdigit` on the ASCII range: non-empty and every
character a decimal digit `0`-`9`. -/
def pyIsdigit (s : String) : Bool :=
  !s.isEmpty && s.data.all (fun c => '0' ≤ c && c ≤ '9')

/-- The errors the `for i, op in enumerate(operators)` body of
`validate_config` produces for the operator at 0-based index `i`.
The `"missing name"` check; then `owner_id = op.get("hubspot_owner_id", "")`,
the `"missing hubspot_owner_id"` check when falsy, else the
`isdigit` check. -/
def operatorErrors (i : Nat) (op : Operator) : List String :=
  (if !truthy op.name then ["Operator " ++ toString (i + 1) ++ ": missing name"]
   else [])
  ++
  (let owner_id := op.hubspot_owner_id.getD ""
   if owner_id.isEmpty then
     ["Operator " ++ toString (i + 1) ++ ": missing hubspot_owner_id"]
   else if !pyIsdigit owner_id then
     ["Operator " ++ toString (i + 1) ++
      ": hubspot_owner_id must be numeric, got: \x27" ++ owner_id ++ "\x27"]
   else [])

/-- The errors the `for i, p in enumerate(personas)` body of
`validate_config` produces for the persona at 0-based index `i`. -/
def personaErrors (i : Nat) (p : Persona) : List String :=
  (if !truthy p.title_keywords then
     ["Persona " ++ toString (i + 1) ++ ": missing title_keywords"]
   else [])
  ++
  (if !truthy p.location then
     ["Persona " ++ toString (i + 1) ++ ": missing location"]
   else [])

/-- Model of `generate_client_config.validate_config`: all rules evaluated in one
pass, errors accumulated in source order. -/
def validate_config (config : ClientConfig) : List String :=
  (if !truthy config.company_name then ["Missing required field: company_name"]
   else [])
  ++
  (if !truthy config.pfx then ["Missing required field: prefix"] else [])
  ++
  (if truthy config.pfx then validate_prefix (config.pfx.getD "") else [])
  ++
  (if config.operators.isEmpty then ["At least one operator is required"]
   else [])
  ++ (config.operators.enum.map (fun q => operatorErrors q.1 q.2)).flatten
  ++
  (if config.personas.isEmpty then ["At least one persona is required"]
   else [])
  ++ (config.personas.enum.map (fun q => personaErrors q.1 q.2)).flatten

/-! ### setup_n8n_tables.py -/

/-- Rate-limit default `WEEKLY_REMAINING`. -/
def WEEKLY_REMAINING : Nat := 150

/-- Rate-limit default `DAILY_REMAINING`. -/
def DAILY_REMAINING : Nat := 20

/-- The `datetime.date.isleap`-style Gregorian leap-year test. -/
def isLeap (y : Nat) : Bool := (y % 4 == 0 && y % 100 != 0) || y % 400 == 0

/-- Number of days in month `m` of year `y` (months 1-12). -/
def daysInMonth (y m : Nat) : Nat :=
  if m == 2 then (if isLeap y then 29 else 28)
  else if m == 4 || m == 6 || m == 9 || m == 11 then 30
  else 31

/-- Days in all years before year `y` of the proleptic Gregorian
calendar (years counted from 1, as in Python `datetime.date`). -/
def daysBeforeYear (y : Nat) : Nat :=
  let n := y - 1
  n * 365 + n / 4 - n / 100 + n / 400

/-- Days in year `y` before the first day of month `m`. -/
def daysBeforeMonth (y m : Nat) : Nat :=
  (List.range (m - 1)).foldl (fun acc i => acc + daysInMonth y (i + 1)) 0

/-- Python `date(y, m, d).toordinal()`: 0001-01-01 has ordinal 1. -/
def ymdToOrdinal (y m d : Nat) : Nat :=
  daysBeforeYear y + daysBeforeMonth y m + d

/-- Inverse of `ymdToOrdinal` (civil-from-days); `n + 305` is the day
count from 0000-03-01, so the era arithmetic stays in `Nat`. -/
def ordinalToYmd (n : Nat) : Nat × Nat × Nat :=
  let z := n + 305
  let era := z / 146097
  let doe := z % 146097
  let yoe := (doe - doe / 1460 + doe / 36524 - doe / 146096) / 365
  let y := yoe + era * 400
  let doy := doe - (365 * yoe + yoe / 4 - yoe / 100)
  let mp := (5 * doy + 2) / 153
  let d := doy - (153 * mp + 2) / 5 + 1
  let m := if mp < 10 then mp + 3 else mp - 9
  (if m ≤ 2 then y + 1 else y, m, d)

/-- Left-pad a numeral to 2 digits, as in `date.isoformat`. -/
def pad2 (n : Nat) : String := if n < 10 then "0" ++ toString n else toString n

/-- Left-pad a numeral to 4 digits, as in `date.isoformat`. -/
def pad4 (n : Nat) : String :=
  if n < 10 then "000" ++ toString n
  else if n < 100 then "00" ++ toString n
  else if n < 1000 then "0" ++ toString n
  else toString n

/-- Rendering `date.fromordinal(n).isoformat()`: `YYYY-MM-DD`. -/
def isoformat (n : Nat) : String :=
  pad4 (ordinalToYmd n).1 ++ "-" ++ pad2 (ordinalToYmd n).2.1 ++ "-" ++
    pad2 (ordinalToYmd n).2.2

/-- Python `date.fromordinal(n).weekday()`: Monday = 0. Ordinal 1
(0001-01-01) is a Monday, so this is `(n - 1) % 7`, written
overflow-free. -/
def weekday (n : Nat) : Nat := (n + 6) % 7

/-- Model of `setup_n8n_tables.next_monday`, with `date.today()` passed in as the
ordinal `today`. `days_ahead = 7 - today.weekday()`; the source's
`if days_ahead == 7: days_ahead = 7` branch is kept verbatim. -/
def next_monday (today : Nat) : String :=
  let days_ahead := 7 - weekday today
  let days_ahead := if days_ahead == 7 then 7 else days_ahead
  isoformat (today + days_ahead)

/-- Model of `setup_n8n_tables.tomorrow`, with `date.today()` passed in as the
ordinal `today`. -/
def tomorrow (today : Nat) : String := isoformat (today + 1)

/-- A printed table row: the Python dict literal as an ordered
association list from column name to string value. -/
abbrev Row := List (String × String)

/-- A table spec: `(name, columns, rows)` as returned by the three
table generators. -/
abbrev TableSpec := String × List String × List Row

/-- An `.env` credential mapping: key to value, absent keys `none`. -/
abbrev EnvMap := String → Option String

/-- Model of `setup_n8n_tables.credentials_table`: fixed three rows, one per
service, `env.get(KEY, "")` modelled as `(env KEY).getD ""`. -/
def credentials_table (pfx : String) (env : EnvMap) : TableSpec :=
  (pfx ++ "-wos-credentials",
   ["service", "api_key", "account_id", "dns", "extra_1", "extra_2"],
   [[("service", "hubspot"),
     ("api_key", (env "HUBSPOT_TOKEN").getD ""),
     ("account_id", ""), ("dns", ""), ("extra_1", ""), ("extra_2", "")],
    [("service", "unipile"),
     ("api_key", (env "UNIPILE_API_KEY").getD ""),
     ("account_id", (env "UNIPILE_ACCOUNT_ID").getD ""),
     ("dns", (env "UNIPILE_DNS").getD ""),
     ("extra_1", ""), ("extra_2", "")],
    [("service", "cargo"),
     ("api_key", (env "CARGO_API_KEY").getD ""),
     ("account_id", ""), ("dns", ""), ("extra_1", ""), ("extra_2", "")]])

/-- Map `f` over a list, failing (Python: an uncaught `KeyError` aborts
the whole table build) as soon as one element fails. -/
def rowsOf (f : α → Option Row) : List α → Option (List Row)
  | [] => some []
  | a :: as =>
    match f a, rowsOf f as with
    | some b, some bs => some (b :: bs)
    | _, _ => none

/-- The row built for one persona by `personas_table`: `p["title_keywords"]`
and `p["location"]` are mandatory lookups (raise `KeyError` when the key
is absent), `p.get("language", "en")` and
`p.get("network_distance", "S")` default. -/
def personaRow (p : Persona) : Option Row := do
  let tk ← p.title_keywords
  let loc ← p.location
  pure [("title_keywords", tk),
        ("language", p.language.getD "en"),
        ("network_distance", p.network_distance.getD "S"),
        ("location", loc),
        ("extra_1", ""), ("extra_2", "")]

/-- Model of `setup_n8n_tables.personas_table`. -/
def personas_table (pfx : String) (personas : List Persona) :
    Option TableSpec := do
  let rows ← rowsOf personaRow personas
  pure (pfx ++ "-wos-personas",
        ["title_keywords", "language", "network_distance", "location",
         "extra_1", "extra_2"],
        rows)

/-- The row built for one operator by `user_counters_table`:
`op["name"]` and `op["hubspot_owner_id"]` are mandatory lookups. -/
def counterRow (today : Nat) (op : Operator) : Option Row := do
  let nm ← op.name
  let owner ← op.hubspot_owner_id
  pure [("user_name", nm),
        ("hubspot_owner_id", owner),
        ("weekly_count", "0"), ("daily_count", "0"),
        ("weekly_remaining", toString WEEKLY_REMAINING),
        ("daily_remaining", toString DAILY_REMAINING),
        ("weekly_reset_date", next_monday today),
        ("daily_reset_date", tomorrow today),
        ("invite_safe_date", ""),
        ("extra_1", ""), ("extra_2", ""), ("extra_3", "")]

/-- Model of `setup_n8n_tables.user_counters_table`, with `date.today()` passed
in as the ordinal `today`. -/
def user_counters_table (pfx : String) (operators : List Operator)
    (today : Nat) : Option TableSpec := do
  let rows ← rowsOf (counterRow today) operators
  pure (pfx ++ "-wos-user_counters",
        ["user_name", "hubspot_owner_id",
         "weekly_count", "daily_count",
         "weekly_remaining", "daily_remaining",
         "weekly_reset_date", "daily_reset_date",
         "invite_safe_date",
         "extra_1", "extra_2", "extra_3"],
        rows)

/-! ### verify_hubspot_properties.py -/

/-- One entry of `CONTACT_PROPERTIES` / `COMPANY_PROPERTIES`. -/
structure PropSpec where
  name : String
  type : String
  fieldType : String
  label : String
  groupName : String
deriving Repr, DecidableEq

/-- The list `CONTACT_PROPERTIES` (11 entries). -/
def CONTACT_PROPERTIES : List PropSpec :=
  [⟨"wos_outreach_stage", "string", "text", "WOS Outreach Stage",
    "contactinformation"⟩,
   ⟨"wos_sequence_status", "string", "text", "WOS Sequence Status",
    "contactinformation"⟩,
   ⟨"wos_sequence_name", "string", "text", "WOS Sequence Name",
    "contactinformation"⟩,
   ⟨"wos_sequence_start_date", "datetime", "date", "WOS Sequence Start Date",
    "contactinformation"⟩,
   ⟨"wos_user_id", "string", "text", "WOS User ID",
    "contactinformation"⟩,
   ⟨"wos_last_interaction_date", "datetime", "date",
    "WOS Last Interaction Date", "contactinformation"⟩,
   ⟨"wos_linkedin_url", "string", "text", "WOS LinkedIn URL",
    "contactinformation"⟩,
   ⟨"wos_linkedin_id", "string", "text", "WOS LinkedIn ID",
    "contactinformation"⟩,
   ⟨"wos_linkedin_connection_status", "string", "text",
    "WOS LinkedIn Connection Status", "contactinformation"⟩,
   ⟨"wos_connection_accepted_date", "datetime", "date",
    "WOS Connection Accepted Date", "contactinformation"⟩,
   ⟨"n8n_initiate_li_message", "string", "text", "n8n Initiate LI Message",
    "contactinformation"⟩]

/-- The list `COMPANY_PROPERTIES` (3 entries). -/
def COMPANY_PROPERTIES : List PropSpec :=
  [⟨"wos_process_company", "datetime", "date", "WOS Initiate LI Agent",
    "companyinformation"⟩,
   ⟨"wos_persona", "string", "text", "WOS Persona",
    "companyinformation"⟩,
   ⟨"wos_user_id", "string", "text", "WOS User ID",
    "companyinformation"⟩]

/-- The mapping `PROPERTY_SPECS`, iterated in dict insertion order. -/
def PROPERTY_SPECS : List (String × List PropSpec) :=
  [("contacts", CONTACT_PROPERTIES), ("companies", COMPANY_PROPERTIES)]

/-- Outcome of one `requests.get` schema fetch: a normal response whose
parsed body yields the existing property names, a non-2xx status (which
`raise_for_status` turns into `requests.HTTPError`), or a
transport-level failure (`requests.Timeout` / `ConnectionError`, raised
by `requests.get` itself). -/
inductive FetchResult where
  | ok (names : List String)
  | httpError
  | transportError
deriving Repr, DecidableEq

/-- Outcome of one `requests.post` creation call: a response with a
status code, or a transport-level failure raised by `requests.post`. -/
inductive CreateResult where
  | status (code : Nat)
  | transportError
deriving Repr, DecidableEq

/-- An exception escaping a Python function (here always a transport
error of the `requests` library, the only one nothing catches). -/
abbrev PyExn := Unit

/-- Model of `fetch_existing_properties`: returns the existing names, or raises.
The caller distinguishes `requests.HTTPError` (caught) from transport
errors (not caught), so the error side keeps that distinction. -/
inductive NetErr where
  | http
  | transport
deriving Repr, DecidableEq

/-- Model of `fetch_existing_properties` over an injected per-object-type fetch
outcome. -/
def fetch_existing_properties (fetch : String → FetchResult)
    (object_type : String) : Except NetErr (List String) :=
  match fetch object_type with
  | .ok names => .ok names
  | .httpError => .error .http
  | .transportError => .error .transport

/-- Model of `create_property` over an injected call outcome: status 200/201 is
success, any other status is a reported failure (returns `false`); a
transport error raises out of the function (nothing catches it). -/
def create_property (r : CreateResult) : Except PyExn Bool :=
  match r with
  | .status code => .ok (code == 200 || code == 201)
  | .transportError => .error ()

/-- The observable record `verify_and_create` accumulates: the `all_ok`
flag, the properties printed as MISSING, and the creation calls issued
(the source performs these by side effect; the embedding logs them). -/
structure RunLog where
  all_ok : Bool
  missing : List (String × String)
  creates : List (String × String)
deriving Repr, DecidableEq

/-- The `for prop in specs` loop body of `verify_and_create` for one
object type, over the fetched `existing` set. -/
def runProps (create : String → String → CreateResult) (do_create : Bool)
    (object_type : String) (existing : List String) :
    List PropSpec → RunLog → Except PyExn RunLog
  | [], log => .ok log
  | prop :: rest, log =>
    if existing.contains prop.name then
      runProps create do_create object_type existing rest log
    else
      let log := { log with missing := log.missing ++ [(object_type, prop.name)] }
      if do_create then
        match create_property (create object_type prop.name) with
        | .error e => .error e
        | .ok ok =>
          runProps create do_create object_type existing rest
            { log with creates := log.creates ++ [(object_type, prop.name)],
                       all_ok := log.all_ok && ok }
      else
        runProps create do_create object_type existing rest
          { log with all_ok := false }

/-- The `for object_type, specs in PROPERTY_SPECS.items()` loop of
`verify_and_create`: `except requests.HTTPError` catches exactly the
HTTP-status failure of the fetch (sets `all_ok = False`, `continue`);
a transport error is not matched and propagates. -/
def runTypes (fetch : String → FetchResult)
    (create : String → String → CreateResult) (do_create : Bool) :
    List (String × List PropSpec) → RunLog → Except PyExn RunLog
  | [], log => .ok log
  | (object_type, specs) :: rest, log =>
    match fetch_existing_properties fetch object_type with
    | .error .http =>
      runTypes fetch create do_create rest { log with all_ok := false }
    | .error .transport => .error ()
    | .ok existing =>
      match runProps create do_create object_type existing specs log with
      | .error e => .error e
      | .ok log => runTypes fetch create do_create rest log

/-- Model of `verify_and_create` over injected network-call outcomes. -/
def verify_and_create (fetch : String → FetchResult)
    (create : String → String → CreateResult) (do_create : Bool) :
    Except PyExn RunLog :=
  runTypes fetch create do_create PROPERTY_SPECS ⟨true, [], []⟩

/-- The exit `sys.exit(0 if ok else 1)` at the end of `main`. -/
def mainExitCode (ok : Bool) : Nat := if ok then 0 else 1

/-- The check `resp.status_code in (200, 201)`: the creation-success statuses. -/
def statusOk (code : Nat) : Bool := code == 200 || code == 201

/-- A fetch environment built from one outcome per object type:
`none` stands for a fetch whose `raise_for_status` raises
`requests.HTTPError`, `some names` for a 2xx response listing the
existing property names. -/
def fetchOf (exC exCo : Option (List String)) : String → FetchResult :=
  fun object_type =>
    if object_type == "contacts" then
      match exC with
      | some names => .ok names
      | none => .httpError
    else
      match exCo with
      | some names => .ok names
      | none => .httpError

/-! ### CLI prefix handling (`main` of both config scripts) -/

/-- Python `str.upper` at the character level on the ASCII range
(`a`-`z` mapped down by 32), the range the CLI prefix argument uses. -/
def upperChar (c : Char) : Char :=
  if 97 ≤ c.toNat && c.toNat ≤ 122 then Char.ofNat (c.toNat - 32) else c

/-- Python `str.upper` on the ASCII range. -/
def pyUpper (s : String) : String := ⟨s.data.map upperChar⟩

/-- Model of `os.path.join(a, b)` for POSIX paths (the cases with at most one
component after the base). -/
def pathJoin (a b : String) : String :=
  if b.startsWith "/" then b
  else if a.endsWith "/" || a.isEmpty then a ++ b
  else a ++ "/" ++ b

/-- The config/env file pair `run_validate` (generate_client_config)
derives from its `prefix` argument, identical to the pair `main` of
setup_n8n_tables derives. -/
def config_env_paths (configs_dir pfx : String) : String × String :=
  (pathJoin configs_dir (pfx ++ "-client-config.json"),
   pathJoin configs_dir (pfx ++ ".env"))

/-- In `main` of generate_client_config, `--validate` mode: the prefix
`run_validate` receives, `args.prefix.upper()`. -/
def genMainUpperArg (p : String) : String := pyUpper p

/-- The file pair the `--validate` mode of generate_client_config reads,
as a function of the raw `--prefix` argument `p`. -/
def genMain_validate_paths (configs_dir p : String) : String × String :=
  config_env_paths configs_dir (genMainUpperArg p)

/-- The line `prefix = args.prefix.upper()` in `main` of setup_n8n_tables. -/
def setupMainUpperArg (p : String) : String := pyUpper p

/-- The file pair `main` of setup_n8n_tables reads, as a function of the
raw `--prefix` argument `p`. -/
def setupMain_paths (configs_dir p : String) : String × String :=
  config_env_paths configs_dir (setupMainUpperArg p)

/-! ## Theorems -/

theorem validate_prefix_eq_nil_iff (s : String) :
    validate_prefix s = [] ↔ fullmatchUpper24 s = true := by
  unfold validate_prefix
  split <;> simp_all

/-- C4: `validate_prefix` returns an empty error list exactly on strings
of 2 to 4 uppercase ASCII letters; `"AC"` and `"ACME"` are accepted,
`"ac"`, `"A"`, `"ACMEX"` and `"AC1"` are rejected. -/
theorem c4_prefix_validation (s : String) :
    ( validate_prefix s = [] ↔
        (2 ≤ s.length ∧ s.length ≤ 4 ∧ ∀ c ∈ s.data, 'A' ≤ c ∧ c ≤ 'Z'))
    ∧ validate_prefix "AC" = [] ∧ validate_prefix "ACME" = []
    ∧ validate_prefix "ac" ≠ [] ∧ validate_prefix "A" ≠ []
    ∧ validate_prefix "ACMEX" ≠ [] ∧ validate_prefix "AC1" ≠ [] := by
  refine ⟨?_, by decide, by decide, by decide, by decide, by decide, by decide⟩
  rw [validate_prefix_eq_nil_iff]
  simp [fullmatchUpper24, isUpperAZ, List.all_eq_true, and_assoc]

/-- C8: the credentials table always has exactly 3 rows, one per service
in the order hubspot, unipile, cargo, with the fixed column list; every
credential looked up with an absent key renders as `""`, and the columns
not relevant to a row's service are `""`. -/
theorem c8_credentials_table_shape (pfx : String) (env : EnvMap) :
    (credentials_table pfx env).2.2.length = 3
    ∧ (credentials_table pfx env).2.1 =
        ["service", "api_key", "account_id", "dns", "extra_1", "extra_2"]
    ∧ (credentials_table pfx env).2.2.map (List.lookup "service") =
        [some "hubspot", some "unipile", some "cargo"]
    ∧ (credentials_table pfx env).2.2.map (List.lookup "account_id") =
        [some "", some ((env "UNIPILE_ACCOUNT_ID").getD ""), some ""]
    ∧ (credentials_table pfx env).2.2.map (List.lookup "dns") =
        [some "", some ((env "UNIPILE_DNS").getD ""), some ""]
    ∧ (credentials_table pfx env).2.2.map (List.lookup "extra_1") =
        [some "", some "", some ""]
    ∧ (credentials_table pfx env).2.2.map (List.lookup "extra_2") =
        [some "", some "", some ""]
    ∧ (env "HUBSPOT_TOKEN" = none →
        (credentials_table pfx env).2.2.map (List.lookup "api_key") =
          [some "", some ((env "UNIPILE_API_KEY").getD ""),
           some ((env "CARGO_API_KEY").getD "")])
    ∧ (env "UNIPILE_ACCOUNT_ID" = none →
        (credentials_table pfx env).2.2.map (List.lookup "account_id") =
          [some "", some "", some ""])
    ∧ ((∀ k, env k = none) →
        (credentials_table pfx env).2.2.map (List.lookup "api_key") =
          [some "", some "", some ""]) := by
  refine ⟨rfl, rfl, rfl, rfl, rfl, rfl, rfl, ?_, ?_, ?_⟩
  · intro h
    simp [credentials_table, List.lookup, h]
  · intro h
    simp [credentials_table, List.lookup, h]
  · intro h
    simp [credentials_table, List.lookup, h]

/-- Witness for C8's conditional conjuncts at the empty mapping. -/
theorem c8_credentials_table_shape_witness :
    ((fun _ => none : EnvMap) "HUBSPOT_TOKEN" = none)
    ∧ (credentials_table "ACM" (fun _ => none)).2.2.map (List.lookup "api_key") =
        [some "", some (((fun _ => none : EnvMap) "UNIPILE_API_KEY").getD ""),
         some (((fun _ => none : EnvMap) "CARGO_API_KEY").getD "")] :=
  ⟨rfl, (c8_credentials_table_shape "ACM" (fun _ => none)).2.2.2.2.2.2.2.1 rfl⟩

theorem toNat_ofNat_of_lt {n : Nat} (h : n < 55296) :
    (Char.ofNat n).toNat = n := by
  rw [Char.ofNat, dif_pos (Or.inl h)]
  rfl

theorem upperChar_idem (c : Char) : upperChar (upperChar c) = upperChar c := by
  by_cases h : (97 ≤ c.toNat && c.toNat ≤ 122) = true
  · have h' : 97 ≤ c.toNat ∧ c.toNat ≤ 122 := by simpa using h
    have h1 : upperChar c = Char.ofNat (c.toNat - 32) := if_pos h
    rw [h1]
    have h2 : (Char.ofNat (c.toNat - 32)).toNat = c.toNat - 32 :=
      toNat_ofNat_of_lt (by omega)
    unfold upperChar
    rw [if_neg (by rw [h2]; simp; omega)]
  · have h1 : upperChar c = c := if_neg h
    rw [h1, h1]

theorem pyUpper_idem (s : String) : pyUpper (pyUpper s) = pyUpper s := by
  unfold pyUpper
  simp [List.map_map, Function.comp_def, upperChar_idem]

/-- C9: both CLIs uppercase the `--prefix` argument before deriving the
config/env file pair, so an invocation with `p` derives the same pair as
an invocation with the uppercased `p`; in particular `"acm"` names the
same file pair as `"ACM"`. -/
theorem c9_cli_uppercases_prefix_argument (configs_dir p : String) :
    genMain_validate_paths configs_dir p =
      genMain_validate_paths configs_dir (pyUpper p)
    ∧ setupMain_paths configs_dir p = setupMain_paths configs_dir (pyUpper p)
    ∧ genMainUpperArg p = setupMainUpperArg p
    ∧ pyUpper "acm" = "ACM"
    ∧ genMain_validate_paths configs_dir "acm" =
        genMain_validate_paths configs_dir "ACM"
    ∧ setupMain_paths configs_dir "acm" = setupMain_paths configs_dir "ACM" := by
  have hacm : pyUpper "acm" = "ACM" := by decide
  have hACM : pyUpper "ACM" = "ACM" := by decide
  refine ⟨?_, ?_, rfl, hacm, ?_, ?_⟩
  · unfold genMain_validate_paths genMainUpperArg
    rw [pyUpper_idem]
  · unfold setupMain_paths setupMainUpperArg
    rw [pyUpper_idem]
  · unfold genMain_validate_paths genMainUpperArg
    rw [hacm, hACM]
  · unfold setupMain_paths setupMainUpperArg
    rw [hacm, hACM]

theorem next_monday_eq (today : Nat) :
    next_monday today = isoformat (today + (7 - weekday today)) := by
  unfold next_monday
  by_cases h : (7 - weekday today == 7) = true
  · simp only [h, if_true]
    have : 7 - weekday today = 7 := by simpa using h
    rw [this]
  · simp only [h]
    rfl

theorem nextMondayOrd_spec (today : Nat) :
    today < today + (7 - weekday today)
    ∧ today + (7 - weekday today) ≤ today + 7
    ∧ weekday (today + (7 - weekday today)) = 0
    ∧ ∀ k, today < k → k < today + (7 - weekday today) → weekday k ≠ 0 := by
  refine ⟨?_, ?_, ?_, fun k hk1 hk2 => ?_⟩ <;> unfold weekday at * <;> omega

theorem rowsOf_mem (f : α → Option Row) (l : List α) (bs : List Row)
    (h : rowsOf f l = some bs) :
    ∀ b ∈ bs, ∃ a ∈ l, f a = some b := by
  induction l generalizing bs with
  | nil =>
    simp only [rowsOf, Option.some.injEq] at h
    subst h
    simp
  | cons a as ih =>
    simp only [rowsOf] at h
    cases hfa : f a with
    | none => rw [hfa] at h; exact absurd h (by simp)
    | some b0 =>
      rw [hfa] at h
      cases hrec : rowsOf f as with
      | none => rw [hrec] at h; exact absurd h (by simp)
      | some bs0 =>
        rw [hrec] at h
        simp only [Option.some.injEq] at h
        subst h
        intro b hb
        rcases List.mem_cons.1 hb with hb | hb
        · exact ⟨a, by simp, hb ▸ hfa⟩
        · obtain ⟨a', ha', hfa'⟩ := ih bs0 hrec b hb
          exact ⟨a', by simp [ha'], hfa'⟩

/-- C3: every row of the user-counters table carries
`weekly_reset_date = next_monday today` and
`daily_reset_date = tomorrow today`; `next_monday today` renders the
ordinal of the unique Monday strictly after `today` and at most 7 days
ahead, `tomorrow today` renders `today + 1`, and on the spec's concrete
dates: Wednesday 2024-01-10 gives 2024-01-15 / 2024-01-11, and Monday
2024-01-08 gives 2024-01-15. -/
theorem c3_reset_dates (pfx : String) (ops : List Operator) (today : Nat) :
    (∀ t, user_counters_table pfx ops today = some t →
      ∀ row ∈ t.2.2,
        row.lookup "weekly_reset_date" = some (next_monday today)
        ∧ row.lookup "daily_reset_date" = some (tomorrow today))
    ∧ (∃ M, next_monday today = isoformat M ∧ today < M ∧ M ≤ today + 7
        ∧ weekday M = 0 ∧ ∀ k, today < k → k < M → weekday k ≠ 0)
    ∧ tomorrow today = isoformat (today + 1)
    ∧ weekday (ymdToOrdinal 2024 1 10) = 2
    ∧ weekday (ymdToOrdinal 2024 1 8) = 0
    ∧ next_monday (ymdToOrdinal 2024 1 10) = "2024-01-15"
    ∧ tomorrow (ymdToOrdinal 2024 1 10) = "2024-01-11"
    ∧ next_monday (ymdToOrdinal 2024 1 8) = "2024-01-15" := by
  refine ⟨?_, ?_, rfl, by decide, by decide, by decide, by decide, by decide⟩
  · intro t ht row hrow
    unfold user_counters_table at ht
    cases hrows : rowsOf (counterRow today) ops with
    | none => rw [hrows] at ht; exact absurd ht (by simp)
    | some rows =>
      rw [hrows] at ht
      simp only [Option.pure_def, Option.bind_eq_bind, Option.some_bind,
        Option.some.injEq] at ht
      subst ht
      obtain ⟨op, _, hop⟩ := rowsOf_mem _ _ _ hrows row hrow
      unfold counterRow at hop
      cases hnm : op.name with
      | none => rw [hnm] at hop; exact absurd hop (by simp)
      | some nm =>
        cases howner : op.hubspot_owner_id with
        | none => rw [hnm, howner] at hop; exact absurd hop (by simp)
        | some owner =>
          rw [hnm, howner] at hop
          simp only [Option.pure_def, Option.bind_eq_bind, Option.some_bind,
            Option.some.injEq] at hop
          subst hop
          constructor <;> rfl
  · exact ⟨today + (7 - weekday today), next_monday_eq today,
      (nextMondayOrd_spec today).1, (nextMondayOrd_spec today).2.1,
      (nextMondayOrd_spec today).2.2.1, (nextMondayOrd_spec today).2.2.2⟩

/-- Witness for C3's first conjunct: a one-operator table built for
Wednesday 2024-01-10. -/
theorem c3_reset_dates_witness :
    List.lookup "weekly_reset_date"
        [("user_name", "Ana"), ("hubspot_owner_id", "123"),
         ("weekly_count", "0"), ("daily_count", "0"),
         ("weekly_remaining", toString WEEKLY_REMAINING),
         ("daily_remaining", toString DAILY_REMAINING),
         ("weekly_reset_date", next_monday (ymdToOrdinal 2024 1 10)),
         ("daily_reset_date", tomorrow (ymdToOrdinal 2024 1 10)),
         ("invite_safe_date", ""),
         ("extra_1", ""), ("extra_2", ""), ("extra_3", "")] =
      some (next_monday (ymdToOrdinal 2024 1 10))
    ∧ List.lookup "daily_reset_date"
        [("user_name", "Ana"), ("hubspot_owner_id", "123"),
         ("weekly_count", "0"), ("daily_count", "0"),
         ("weekly_remaining", toString WEEKLY_REMAINING),
         ("daily_remaining", toString DAILY_REMAINING),
         ("weekly_reset_date", next_monday (ymdToOrdinal 2024 1 10)),
         ("daily_reset_date", tomorrow (ymdToOrdinal 2024 1 10)),
         ("invite_safe_date", ""),
         ("extra_1", ""), ("extra_2", ""), ("extra_3", "")] =
      some (tomorrow (ymdToOrdinal 2024 1 10)) :=
  (c3_reset_dates "ACM" [⟨some "Ana", some "123"⟩] (ymdToOrdinal 2024 1 10)).1
    _ rfl _ (by simp [user_counters_table, rowsOf, counterRow])

theorem runProps_status (st : String → String → Nat) (dc : Bool)
    (ot : String) (existing : List String) (specs : List PropSpec)
    (log : RunLog) :
    runProps (fun o n => .status (st o n)) dc ot existing specs log =
      .ok ⟨log.all_ok && specs.all
             (fun p => existing.contains p.name || (dc && statusOk (st ot p.name))),
           log.missing ++ (specs.filter
             (fun p => !existing.contains p.name)).map (fun p => (ot, p.name)),
           log.creates ++ (if dc then (specs.filter
             (fun p => !existing.contains p.name)).map (fun p => (ot, p.name))
             else [])⟩ := by
  induction specs generalizing log with
  | nil => simp [runProps]
  | cons p rest ih =>
    by_cases hc : existing.contains p.name
    · have hc' : p.name ∈ existing := by simpa using hc
      rw [runProps, if_pos hc, ih]
      simp [hc']
    · have hc' : p.name ∉ existing := by simpa using hc
      rw [runProps, if_neg hc]
      cases dc with
      | true =>
        rw [if_pos rfl]
        rw [show create_property (.status (st ot p.name)) =
              .ok (statusOk (st ot p.name)) from rfl]
        dsimp only
        rw [ih]
        simp [hc', Bool.and_assoc, List.filter_cons]
      | false =>
        rw [if_neg (by simp)]
        rw [ih]
        simp [hc', List.filter_cons]

theorem runProps_all_present (create : String → String → CreateResult)
    (dc : Bool) (ot : String) (existing : List String)
    (specs : List PropSpec) (log : RunLog)
    (h : ∀ p ∈ specs, existing.contains p.name) :
    runProps create dc ot existing specs log = .ok log := by
  induction specs with
  | nil => rfl
  | cons p rest ih =>
    rw [runProps, if_pos (h p (by simp))]
    exact ih (fun q hq => h q (by simp [hq]))

/-- C7: when all 14 required names are already present on their object
types, `verify_and_create` reports zero missing fields, makes zero
creation calls, and returns overall success — for any creation-call
environment and either mode, so a second run after a fully successful
`--create` run is a no-op. -/
theorem c7_idempotent_second_run (exC exCo : List String)
    (create : String → String → CreateResult) (dc : Bool)
    (h1 : ∀ p ∈ CONTACT_PROPERTIES, exC.contains p.name)
    (h2 : ∀ p ∈ COMPANY_PROPERTIES, exCo.contains p.name) :
    verify_and_create (fetchOf (some exC) (some exCo)) create dc =
      .ok ⟨true, [], []⟩ := by
  unfold verify_and_create PROPERTY_SPECS
  have hfc : fetch_existing_properties (fetchOf (some exC) (some exCo))
      "contacts" = .ok exC := rfl
  have hfco : fetch_existing_properties (fetchOf (some exC) (some exCo))
      "companies" = .ok exCo := rfl
  rw [runTypes, hfc]
  dsimp only
  rw [runProps_all_present create dc "contacts" exC CONTACT_PROPERTIES _ h1]
  dsimp only
  rw [runTypes, hfco]
  dsimp only
  rw [runProps_all_present create dc "companies" exCo COMPANY_PROPERTIES _ h2]
  rfl

/-- Witness for C7: existing sets listing exactly the required names. -/
theorem c7_idempotent_second_run_witness :
    verify_and_create
        (fetchOf (some (CONTACT_PROPERTIES.map (fun p => p.name)))
          (some (COMPANY_PROPERTIES.map (fun p => p.name))))
        (fun _ _ => CreateResult.status 201) true =
      .ok ⟨true, [], []⟩ :=
  c7_idempotent_second_run _ _ _ _ (by decide) (by decide)

theorem verify_status_none_none (dc : Bool) (st : String → String → Nat) :
    verify_and_create (fetchOf none none) (fun o n => .status (st o n)) dc =
      .ok ⟨false, [], []⟩ := rfl

theorem verify_status_none_some (lCo : List String) (dc : Bool)
    (st : String → String → Nat) :
    verify_and_create (fetchOf none (some lCo)) (fun o n => .status (st o n)) dc =
      .ok ⟨false,
        (COMPANY_PROPERTIES.filter (fun p => !lCo.contains p.name)).map
          (fun p => ("companies", p.name)),
        if dc then (COMPANY_PROPERTIES.filter
            (fun p => !lCo.contains p.name)).map (fun p => ("companies", p.name))
          else []⟩ := by
  unfold verify_and_create PROPERTY_SPECS
  rw [runTypes,
    show fetch_existing_properties (fetchOf none (some lCo)) "contacts" =
      .error .http from rfl]
  dsimp only
  rw [runTypes,
    show fetch_existing_properties (fetchOf none (some lCo)) "companies" =
      .ok lCo from rfl]
  dsimp only
  rw [runProps_status]
  dsimp only
  rw [runTypes]
  simp

theorem verify_status_some_none (lC : List String) (dc : Bool)
    (st : String → String → Nat) :
    verify_and_create (fetchOf (some lC) none) (fun o n => .status (st o n)) dc =
      .ok ⟨false,
        (CONTACT_PROPERTIES.filter (fun p => !lC.contains p.name)).map
          (fun p => ("contacts", p.name)),
        if dc then (CONTACT_PROPERTIES.filter
            (fun p => !lC.contains p.name)).map (fun p => ("contacts", p.name))
          else []⟩ := by
  unfold verify_and_create PROPERTY_SPECS
  rw [runTypes,
    show fetch_existing_properties (fetchOf (some lC) none) "contacts" =
      .ok lC from rfl]
  dsimp only
  rw [runProps_status]
  dsimp only
  rw [runTypes,
    show fetch_existing_properties (fetchOf (some lC) none) "companies" =
      .error .http from rfl]
  dsimp only
  rw [runTypes]
  simp

theorem verify_status_some_some (lC lCo : List String) (dc : Bool)
    (st : String → String → Nat) :
    verify_and_create (fetchOf (some lC) (some lCo))
        (fun o n => .status (st o n)) dc =
      .ok ⟨(CONTACT_PROPERTIES.all (fun p => lC.contains p.name
              || (dc && statusOk (st "contacts" p.name))))
            && (COMPANY_PROPERTIES.all (fun p => lCo.contains p.name
              || (dc && statusOk (st "companies" p.name)))),
        (CONTACT_PROPERTIES.filter (fun p => !lC.contains p.name)).map
            (fun p => ("contacts", p.name))
          ++ (COMPANY_PROPERTIES.filter (fun p => !lCo.contains p.name)).map
            (fun p => ("companies", p.name)),
        if dc then
          (CONTACT_PROPERTIES.filter (fun p => !lC.contains p.name)).map
              (fun p => ("contacts", p.name))
            ++ (COMPANY_PROPERTIES.filter (fun p => !lCo.contains p.name)).map
              (fun p => ("companies", p.name))
          else []⟩ := by
  unfold verify_and_create PROPERTY_SPECS
  rw [runTypes,
    show fetch_existing_properties (fetchOf (some lC) (some lCo)) "contacts" =
      .ok lC from rfl]
  dsimp only
  rw [runProps_status]
  dsimp only
  rw [runTypes,
    show fetch_existing_properties (fetchOf (some lC) (some lCo)) "companies" =
      .ok lCo from rfl]
  dsimp only
  rw [runProps_status]
  dsimp only
  rw [runTypes]
  cases dc <;> simp [Bool.and_assoc]

/-- C1: with the per-object-type fetch outcomes and per-field creation
statuses injected, `verify_and_create` returns true iff both fetches
succeeded and every one of the 14 required names is present on its
object type or (in create mode) its creation call returned 200/201; an
HTTP fetch failure on one object type forces the overall result false
and skips only that object type, while the other is still processed in
full (its missing fields are still reported and, in create mode, still
attempted). -/
theorem c1_overall_success_iff (exC exCo : Option (List String))
    (dc : Bool) (st : String → String → Nat) :
    (∃ log, verify_and_create (fetchOf exC exCo)
        (fun o n => .status (st o n)) dc = .ok log
      ∧ (log.all_ok = true ↔
          ∃ lC lCo, exC = some lC ∧ exCo = some lCo
            ∧ (∀ p ∈ CONTACT_PROPERTIES,
                p.name ∈ lC ∨ (dc = true ∧
                  (st "contacts" p.name = 200 ∨ st "contacts" p.name = 201)))
            ∧ (∀ p ∈ COMPANY_PROPERTIES,
                p.name ∈ lCo ∨ (dc = true ∧
                  (st "companies" p.name = 200 ∨ st "companies" p.name = 201)))))
    ∧ CONTACT_PROPERTIES.length + COMPANY_PROPERTIES.length = 14
    ∧ (∀ lCo, exC = none → exCo = some lCo →
        verify_and_create (fetchOf exC exCo) (fun o n => .status (st o n)) dc =
          .ok ⟨false,
            (COMPANY_PROPERTIES.filter (fun p => !lCo.contains p.name)).map
              (fun p => ("companies", p.name)),
            if dc then (COMPANY_PROPERTIES.filter
                (fun p => !lCo.contains p.name)).map
                (fun p => ("companies", p.name))
              else []⟩)
    ∧ (∀ lC, exC = some lC → exCo = none →
        verify_and_create (fetchOf exC exCo) (fun o n => .status (st o n)) dc =
          .ok ⟨false,
            (CONTACT_PROPERTIES.filter (fun p => !lC.contains p.name)).map
              (fun p => ("contacts", p.name)),
            if dc then (CONTACT_PROPERTIES.filter
                (fun p => !lC.contains p.name)).map
                (fun p => ("contacts", p.name))
              else []⟩) := by
  refine ⟨?_, rfl, ?_, ?_⟩
  · rcases exC with _ | lC <;> rcases exCo with _ | lCo
    · exact ⟨⟨false, [], []⟩, verify_status_none_none dc st, by simp⟩
    · refine ⟨_, verify_status_none_some lCo dc st, by simp⟩
    · refine ⟨_, verify_status_some_none lC dc st, by simp⟩
    · refine ⟨_, verify_status_some_some lC lCo dc st, ?_⟩
      simp only [Option.some.injEq, exists_eq_left']
      simp [List.all_eq_true, statusOk, Bool.or_eq_true, Bool.and_eq_true,
        beq_iff_eq]
  · rintro lCo rfl rfl
    exact verify_status_none_some lCo dc st
  · rintro lC rfl rfl
    exact verify_status_some_none lC dc st

/-- Witness for C1's conditional conjuncts: contacts fetch fails,
companies fetch returns the empty schema. -/
theorem c1_overall_success_iff_witness :
    verify_and_create (fetchOf none (some []))
        (fun o n => .status ((fun _ _ => 201) o n)) true =
      .ok ⟨false,
        (COMPANY_PROPERTIES.filter (fun p => !List.contains [] p.name)).map
          (fun p => ("companies", p.name)),
        if true then (COMPANY_PROPERTIES.filter
            (fun p => !List.contains [] p.name)).map
            (fun p => ("companies", p.name))
          else []⟩ :=
  (c1_overall_success_iff none (some []) true (fun _ _ => 201)).2.2.1 [] rfl rfl

theorem runTypes_no_transport (fetch : String → FetchResult)
    (st : String → String → Nat) (dc : Bool)
    (l : List (String × List PropSpec)) (log : RunLog)
    (hf : ∀ ot, fetch ot ≠ .transportError) :
    ∃ log2, runTypes fetch (fun o n => .status (st o n)) dc l log = .ok log2 := by
  induction l generalizing log with
  | nil => exact ⟨log, rfl⟩
  | cons x rest ih =>
    obtain ⟨ot, specs⟩ := x
    rw [runTypes]
    cases hfo : fetch ot with
    | ok names =>
      rw [show fetch_existing_properties fetch ot = .ok names by
        unfold fetch_existing_properties; rw [hfo]]
      dsimp only
      rw [runProps_status]
      exact ih _
    | httpError =>
      rw [show fetch_existing_properties fetch ot = .error .http by
        unfold fetch_existing_properties; rw [hfo]]
      exact ih _
    | transportError => exact absurd hfo (hf ot)

/-- C2 counterexample: the claim says a transport-level failure (e.g. a
timeout) of a network call is caught where the call occurs and no
exception propagates out of `verify_and_create`; but when the contacts
schema fetch raises a transport error, `verify_and_create` itself
raises (`except requests.HTTPError` does not match `requests.Timeout`),
instead of returning a reported outcome. -/
theorem c2_counterexample :
    verify_and_create (fun _ => FetchResult.transportError)
      (fun _ _ => CreateResult.status 201) true = .error () := rfl

/-- C2 (amended): HTTP-status failures are caught at the call boundary —
a fetch whose `raise_for_status` raises `HTTPError` yields a reported
overall failure (result false, exit code 1) and a non-200/201 creation
status yields a reported per-field failure — and with no transport
errors no exception escapes `verify_and_create`; but a transport-level
failure (timeout, connection error) of either call is not caught and
propagates out of `verify_and_create` as an exception. -/
theorem c2_transport_not_caught (st : String → String → Nat) (dc : Bool) :
    (∀ lCo, ∃ log, verify_and_create (fetchOf none (some lCo))
        (fun o n => .status (st o n)) dc = .ok log
      ∧ log.all_ok = false ∧ mainExitCode log.all_ok = 1)
    ∧ (∀ fetch : String → FetchResult, (∀ ot, fetch ot ≠ .transportError) →
        ∃ log, verify_and_create fetch (fun o n => .status (st o n)) dc =
          .ok log)
    ∧ create_property (.status 404) = .ok false
    ∧ verify_and_create (fun _ => .transportError)
        (fun o n => .status (st o n)) dc = .error ()
    ∧ verify_and_create (fetchOf (some []) (some []))
        (fun _ _ => CreateResult.transportError) true = .error () := by
  refine ⟨?_, ?_, rfl, rfl, rfl⟩
  · intro lCo
    exact ⟨_, verify_status_none_some lCo dc st, rfl, rfl⟩
  · intro fetch hf
    exact runTypes_no_transport fetch st dc PROPERTY_SPECS ⟨true, [], []⟩ hf

/-- Witness for C2's amended theorem: a no-transport environment. -/
theorem c2_transport_not_caught_witness :
    ∃ log, verify_and_create (fetchOf none (some []))
        (fun o n => .status ((fun _ _ => 404) o n)) false = .ok log
      ∧ log.all_ok = false ∧ mainExitCode log.all_ok = 1 :=
  (c2_transport_not_caught (fun _ _ => 404) false).1 []

theorem rowsOf_eq_some (f : α → Option Row) (l : List α)
    (h : ∀ a ∈ l, (f a).isSome) :
    rowsOf f l = some (l.map (fun a => (f a).getD [])) := by
  induction l with
  | nil => rfl
  | cons a as ih =>
    have ha := h a (by simp)
    rw [rowsOf, ih (fun x hx => h x (by simp [hx]))]
    cases hfa : f a with
    | none => rw [hfa] at ha; exact absurd ha (by simp)
    | some b => simp [hfa]

theorem rowsOf_eq_none (f : α → Option Row) (l : List α)
    (h : ∃ a ∈ l, f a = none) : rowsOf f l = none := by
  induction l with
  | nil => simp at h
  | cons a as ih =>
    rw [rowsOf]
    rcases h with ⟨x, hx, hfx⟩
    rcases List.mem_cons.1 hx with rfl | hx
    · rw [hfx]
    · rw [ih ⟨x, hx, hfx⟩]
      cases f a <;> rfl

/-- C10: when every persona has its `title_keywords` and `location` keys
and every operator has its `name` and `hubspot_owner_id` keys, the two
table builders raise no error and return exactly one row per input
element, in input order, with `language` defaulting to `"en"` and
`network_distance` to `"S"` when absent; when some element lacks a
mandatory key, the mandatory lookup fails and the whole build returns
the error outcome. -/
theorem c10_tables_total (pfx : String) (personas : List Persona)
    (operators : List Operator) (today : Nat) :
    ((∀ p ∈ personas, p.title_keywords.isSome ∧ p.location.isSome) →
      ∃ t, personas_table pfx personas = some t
        ∧ t.2.2.length = personas.length
        ∧ ∀ (i : Nat) (p : Persona), personas[i]? = some p →
            t.2.2[i]? = some
              [("title_keywords", p.title_keywords.getD ""),
               ("language", p.language.getD "en"),
               ("network_distance", p.network_distance.getD "S"),
               ("location", p.location.getD ""),
               ("extra_1", ""), ("extra_2", "")])
    ∧ ((∀ op ∈ operators, op.name.isSome ∧ op.hubspot_owner_id.isSome) →
      ∃ t, user_counters_table pfx operators today = some t
        ∧ t.2.2.length = operators.length
        ∧ ∀ (i : Nat) (op : Operator), operators[i]? = some op →
            t.2.2[i]? = some
              [("user_name", op.name.getD ""),
               ("hubspot_owner_id", op.hubspot_owner_id.getD ""),
               ("weekly_count", "0"), ("daily_count", "0"),
               ("weekly_remaining", toString WEEKLY_REMAINING),
               ("daily_remaining", toString DAILY_REMAINING),
               ("weekly_reset_date", next_monday today),
               ("daily_reset_date", tomorrow today),
               ("invite_safe_date", ""),
               ("extra_1", ""), ("extra_2", ""), ("extra_3", "")])
    ∧ ((∃ p ∈ personas, p.title_keywords = none ∨ p.location = none) →
        personas_table pfx personas = none)
    ∧ ((∃ op ∈ operators, op.name = none ∨ op.hubspot_owner_id = none) →
        user_counters_table pfx operators today = none) := by
  refine ⟨?_, ?_, ?_, ?_⟩
  · intro h
    have hsome : ∀ p ∈ personas, (personaRow p).isSome := by
      intro p hp
      obtain ⟨h1, h2⟩ := h p hp
      obtain ⟨tk, htk⟩ := Option.isSome_iff_exists.1 h1
      obtain ⟨loc, hloc⟩ := Option.isSome_iff_exists.1 h2
      simp [personaRow, htk, hloc]
    refine ⟨_, by rw [personas_table, rowsOf_eq_some _ _ hsome]; rfl, ?_, ?_⟩
    · simp
    · intro i p hp
      have hp' : p ∈ personas := List.getElem?_mem hp
      obtain ⟨h1, h2⟩ := h p hp'
      obtain ⟨tk, htk⟩ := Option.isSome_iff_exists.1 h1
      obtain ⟨loc, hloc⟩ := Option.isSome_iff_exists.1 h2
      simp only [List.getElem?_map, hp, Option.map_some]
      simp [personaRow, htk, hloc]
  · intro h
    have hsome : ∀ op ∈ operators, (counterRow today op).isSome := by
      intro op hop
      obtain ⟨h1, h2⟩ := h op hop
      obtain ⟨nm, hnm⟩ := Option.isSome_iff_exists.1 h1
      obtain ⟨ow, how⟩ := Option.isSome_iff_exists.1 h2
      simp [counterRow, hnm, how]
    refine ⟨_, by rw [user_counters_table, rowsOf_eq_some _ _ hsome]; rfl,
      ?_, ?_⟩
    · simp
    · intro i op hop
      have hop' : op ∈ operators := List.getElem?_mem hop
      obtain ⟨h1, h2⟩ := h op hop'
      obtain ⟨nm, hnm⟩ := Option.isSome_iff_exists.1 h1
      obtain ⟨ow, how⟩ := Option.isSome_iff_exists.1 h2
      simp only [List.getElem?_map, hop, Option.map_some]
      simp [counterRow, hnm, how]
  · intro h
    rw [personas_table, rowsOf_eq_none]
    · rfl
    · obtain ⟨p, hp, hcase⟩ := h
      refine ⟨p, hp, ?_⟩
      rcases hcase with h1 | h1 <;> simp [personaRow, h1]
  · intro h
    rw [user_counters_table, rowsOf_eq_none]
    · rfl
    · obtain ⟨op, hop, hcase⟩ := h
      refine ⟨op, hop, ?_⟩
      rcases hcase with h1 | h1 <;> simp [counterRow, h1]

/-- Witness for C10: one valid persona (without the optional keys) and
one valid operator. -/
theorem c10_tables_total_witness :
    ∃ t, personas_table "ACM" [⟨some "CTO", none, none, some "US"⟩] = some t
      ∧ t.2.2.length = [(⟨some "CTO", none, none, some "US"⟩ : Persona)].length
      ∧ ∀ (i : Nat) (p : Persona),
          [(⟨some "CTO", none, none, some "US"⟩ : Persona)][i]? = some p →
          t.2.2[i]? = some
            [("title_keywords", p.title_keywords.getD ""),
             ("language", p.language.getD "en"),
             ("network_distance", p.network_distance.getD "S"),
             ("location", p.location.getD ""),
             ("extra_1", ""), ("extra_2", "")] :=
  (c10_tables_total "ACM" [⟨some "CTO", none, none, some "US"⟩] [] 1).1
    (by decide)

theorem operatorErrors_mem_validate_config (config : ClientConfig) (i : Nat)
    (op : Operator) (h : config.operators[i]? = some op) :
    ∀ e ∈ operatorErrors i op, e ∈ validate_config config := by
  intro e he
  unfold validate_config
  refine List.mem_append_left _ (List.mem_append_left _
    (List.mem_append_right _ ?_))
  rw [List.mem_flatten]
  refine ⟨ operatorErrors i op, ?_, he⟩
  rw [List.mem_map]
  exact ⟨(i, op), List.mk_mem_enum_iff_getElem?.2 h, rfl⟩

theorem personaErrors_mem_validate_config (config : ClientConfig) (i : Nat)
    (p : Persona) (h : config.personas[i]? = some p) :
    ∀ e ∈ personaErrors i p, e ∈ validate_config config := by
  intro e he
  unfold validate_config
  refine List.mem_append_right _ ?_
  rw [List.mem_flatten]
  refine ⟨ personaErrors i p, ?_, he⟩
  rw [List.mem_map]
  exact ⟨(i, p), List.mk_mem_enum_iff_getElem?.2 h, rfl⟩

theorem pyIsdigit_eq_false_iff (s : String) :
    pyIsdigit s = false ↔
      (s = "" ∨ ∃ c ∈ s.data, ¬('0' ≤ c ∧ c ≤ '9')) := by
  have hall : (¬s.data.all (fun c => '0' ≤ c && c ≤ '9') = true) ↔
      ∃ c ∈ s.data, ¬('0' ≤ c ∧ c ≤ '9') := by
    rw [List.all_eq_true]
    push_neg
    simp
  have hemp : (s.isEmpty = true) ↔ s = "" := String.isEmpty_iff s
  unfold pyIsdigit
  cases h1 : s.isEmpty <;>
    cases h2 : s.data.all (fun c => '0' ≤ c && c ≤ '9')
  · exact iff_of_true (by decide) (Or.inr (hall.1 (by simp [h2])))
  · refine iff_of_false (by decide) ?_
    rintro (heq | hex)
    · rw [heq] at h1
      exact absurd h1 (by decide)
    · exact (hall.2 hex) h2
  · exact iff_of_true (by decide) (Or.inl (hemp.1 h1))
  · exact iff_of_true (by decide) (Or.inl (hemp.1 h1))

theorem operatorErrors_eq_nil_iff (i : Nat) (op : Operator) :
    operatorErrors i op = [] ↔
      (truthy op.name = true
        ∧ (op.hubspot_owner_id.getD "").isEmpty = false
        ∧ pyIsdigit (op.hubspot_owner_id.getD "") = true) := by
  unfold operatorErrors
  cases h1 : truthy op.name <;>
    cases h2 : (op.hubspot_owner_id.getD "").isEmpty <;>
      cases h3 : pyIsdigit (op.hubspot_owner_id.getD "") <;>
        simp [h1, h2, h3]

/-- C5: the per-operator error block of `validate_config` is non-empty
exactly when the operator's name is falsy, or its `hubspot_owner_id` is
absent/empty, or that id has a non-digit character; each such error is
reported by `validate_config`; an all-digit id such as `"1234567"`
passes the digit check, and for a non-empty all-digit id the block
holds no id error (only a possible name error). -/
theorem c5_operator_id_validation (config : ClientConfig) (i : Nat)
    (op : Operator) (h : config.operators[i]? = some op) :
    (operatorErrors i op ≠ [] ↔
      (truthy op.name = false ∨ op.hubspot_owner_id.getD "" = ""
        ∨ ∃ c ∈ (op.hubspot_owner_id.getD "").data,
            ¬('0' ≤ c ∧ c ≤ '9')))
    ∧ (∀ e ∈ operatorErrors i op, e ∈ validate_config config)
    ∧ pyIsdigit "1234567" = true
    ∧ (op.hubspot_owner_id.getD "" ≠ "" →
        pyIsdigit (op.hubspot_owner_id.getD "") = true →
        operatorErrors i op =
          (if !truthy op.name then
            ["Operator " ++ toString (i + 1) ++ ": missing name"]
           else [])) := by
  refine ⟨?_, operatorErrors_mem_validate_config config i op h, by decide, ?_⟩
  · rw [Ne, operatorErrors_eq_nil_iff]
    constructor
    · intro hne
      by_cases ha : truthy op.name = true
      · by_cases hb : (op.hubspot_owner_id.getD "").isEmpty = true
        · exact Or.inr (Or.inl ((String.isEmpty_iff _).1 hb))
        · refine Or.inr (Or.inr ?_)
          have hb2 : (op.hubspot_owner_id.getD "").isEmpty = false :=
            Bool.eq_false_iff.2 hb
          have hd : pyIsdigit (op.hubspot_owner_id.getD "") ≠ true :=
            fun hd => hne ⟨ha, hb2, hd⟩
          have hfd : pyIsdigit (op.hubspot_owner_id.getD "") = false := by
            simpa using hd
          rcases (pyIsdigit_eq_false_iff _).1 hfd with heq | hex
          · exact absurd ((String.isEmpty_iff _).2 heq) hb
          · exact hex
      · exact Or.inl (by simpa using ha)
    · rintro (hx | hx | hx) ⟨ha, hb, hc⟩
      · exact absurd hx (by simp [ha])
      · exact absurd ((String.isEmpty_iff _).2 hx) (by simp [hb])
      · have hfd := (pyIsdigit_eq_false_iff (op.hubspot_owner_id.getD "")).2
          (Or.inr hx)
        exact absurd hc (by simp [hfd])
  · intro hne hdig
    have hemp : (op.hubspot_owner_id.getD "").isEmpty = false := by
      cases hv : (op.hubspot_owner_id.getD "").isEmpty
      · rfl
      · exact absurd ((String.isEmpty_iff _).1 hv) hne
    simp [operatorErrors, hemp, hdig]

/-- Witness for C5 at a concrete config whose only operator has the
non-digit id `"12a"`. -/
theorem c5_operator_id_validation_witness :
    operatorErrors 0 ⟨some "Ana", some "12a"⟩ ≠ [] ↔
      (truthy (Operator.name ⟨some "Ana", some "12a"⟩) = false
        ∨ (Operator.hubspot_owner_id ⟨some "Ana", some "12a"⟩).getD "" = ""
        ∨ ∃ c ∈ ((Operator.hubspot_owner_id
            ⟨some "Ana", some "12a"⟩).getD "").data,
              ¬('0' ≤ c ∧ c ≤ '9')) :=
  (c5_operator_id_validation
    ⟨some "Acme", some "ACM", [⟨some "Ana", some "12a"⟩], []⟩ 0
    ⟨some "Ana", some "12a"⟩ rfl).1

/-- C6: `validate_config` evaluates every rule in one pass: a missing or
empty `company_name` or `prefix` contributes its named message to the
returned list (which is then non-empty), and every operator-level and
persona-level violation is reported alongside in the same list. -/
theorem c6_all_rules_one_pass (config : ClientConfig) :
    (truthy config.company_name = false →
      "Missing required field: company_name" ∈ validate_config config)
    ∧ (truthy config.pfx = false →
      "Missing required field: prefix" ∈ validate_config config)
    ∧ (truthy config.company_name = false → validate_config config ≠ [])
    ∧ (truthy config.pfx = false → validate_config config ≠ [])
    ∧ (∀ (i : Nat) (op : Operator), config.operators[i]? = some op →
        ∀ e ∈ operatorErrors i op, e ∈ validate_config config)
    ∧ (∀ (i : Nat) (p : Persona), config.personas[i]? = some p →
        ∀ e ∈ personaErrors i p, e ∈ validate_config config) := by
  have hc : truthy config.company_name = false →
      "Missing required field: company_name" ∈ validate_config config := by
    intro h
    unfold validate_config
    refine List.mem_append_left _ (List.mem_append_left _
      (List.mem_append_left _ (List.mem_append_left _
        (List.mem_append_left _ (List.mem_append_left _ ?_)))))
    rw [if_pos (by simp [h])]
    simp
  have hp : truthy config.pfx = false →
      "Missing required field: prefix" ∈ validate_config config := by
    intro h
    unfold validate_config
    refine List.mem_append_left _ (List.mem_append_left _
      (List.mem_append_left _ (List.mem_append_left _
        (List.mem_append_left _ (List.mem_append_right _ ?_)))))
    rw [if_pos (by simp [h])]
    simp
  exact ⟨hc, hp,
    fun h => List.ne_nil_of_mem (hc h),
    fun h => List.ne_nil_of_mem (hp h),
    fun i op h => operatorErrors_mem_validate_config config i op h,
    fun i p h => personaErrors_mem_validate_config config i p h⟩

/-- Witness for C6 at a config with empty `company_name`, absent
`prefix`, an operator lacking a name, and a persona lacking a
location. -/
theorem c6_all_rules_one_pass_witness :
    "Missing required field: company_name" ∈
      validate_config ⟨some "", none, [⟨none, some "12"⟩],
        [⟨some "CEO", none, none, none⟩]⟩
    ∧ "Missing required field: prefix" ∈
      validate_config ⟨some "", none, [⟨none, some "12"⟩],
        [⟨some "CEO", none, none, none⟩]⟩
    ∧ "Operator 1: missing name" ∈
      validate_config ⟨some "", none, [⟨none, some "12"⟩],
        [⟨some "CEO", none, none, none⟩]⟩
    ∧ "Persona 1: missing location" ∈
      validate_config ⟨some "", none, [⟨none, some "12"⟩],
        [⟨some "CEO", none, none, none⟩]⟩ := by
  have hthm := c6_all_rules_one_pass
    ⟨some "", none, [⟨none, some "12"⟩], [⟨some "CEO", none, none, none⟩]⟩
  exact ⟨hthm.1 rfl, hthm.2.1 rfl,
    hthm.2.2.2.2.1 0 ⟨none, some "12"⟩ rfl
      "Operator 1: missing name" (by decide),
    hthm.2.2.2.2.2 0 ⟨some "CEO", none, none, none⟩ rfl
      "Persona 1: missing location" (by decide)⟩

end WOS
